import Mathlib

/-!
# Verification of the circular-track game (`main.py`)

Shallow embedding of the core logic of the repository's single source file
`main.py`: a ball on an annular track, launched by a drag gesture, slowed by
friction, with lap counting over a finish line.

Conventions of the embedding:
* Python floats are idealised as exact rationals (`ℚ`).  All game arithmetic
  (positions, velocities, the collision test, the point-to-segment distance)
  is carried out exactly.
* The source compares the *square root* of a squared distance against linear
  bounds (`math.sqrt(...) - radius < INNER`, `distance < radius + 5`).  The
  executable embedding compares the squared distance against the squared
  bounds, which is equivalent for the radii the program uses (every ball is
  constructed with `BALL_RADIUS = 10`); the bridging lemmas
  `collision_test_iff_sqrt` and `close_test_iff_sqrt` below establish the
  equivalence against the literal `Real.sqrt` formulation.
* Mutating methods become functions `Ball → Ball`; `Ball.end_drag`, which in
  Python both mutates and returns a `bool`, returns a pair `Bool × Ball`.
* `float('inf')` (the initial best score) becomes `Option ℕ` with `none`
  standing for infinity; `move_count < best_score` is then
  `movesBeatsBest move_count best_score`.
* The trigonometric start/finish geometry is idealised exactly:
  `cos 90° = 0`, `sin 90° = 1`, `cos 180° = -1`, `sin 180° = 0`.
-/

namespace Racetrack

/-- Window width, `WIDTH = 800` in `main.py`. -/
def WIDTH : ℚ := 800

/-- Window height, `HEIGHT = 600` in `main.py`. -/
def HEIGHT : ℚ := 600

/-- Constant `BALL_RADIUS = 10` in `main.py`. -/
def BALL_RADIUS : ℚ := 10

/-- Constant `TRACK_INNER_RADIUS = 150` in `main.py`. -/
def TRACK_INNER_RADIUS : ℚ := 150

/-- Constant `TRACK_OUTER_RADIUS = 250` in `main.py`. -/
def TRACK_OUTER_RADIUS : ℚ := 250

/-- Constant `FRICTION = 0.98` in `main.py`. -/
def FRICTION : ℚ := 98 / 100

/-- The ball entity: position, radius, velocity, motion flag, drag anchor and
drag flag — the fields set by `Ball.__init__`. -/
structure Ball where
  x : ℚ
  y : ℚ
  radius : ℚ
  vx : ℚ
  vy : ℚ
  moving : Bool
  start_drag_x : ℚ
  start_drag_y : ℚ
  dragging : Bool
deriving DecidableEq, Repr

/-- Constructor `Ball(x, y, radius)`: it zeroes velocity and the drag anchor
and clears both flags. -/
def Ball.init (x y radius : ℚ) : Ball :=
  { x := x, y := y, radius := radius, vx := 0, vy := 0, moving := false
    start_drag_x := 0, start_drag_y := 0, dragging := false }

/-- Squared distance from the tentative next position to the track center,
`(next_x - WIDTH/2)**2 + (next_y - HEIGHT/2)**2` in `Ball.update`. -/
def next_dist2 (b : Ball) : ℚ :=
  ((b.x + b.vx) - WIDTH / 2) ^ 2 + ((b.y + b.vy) - HEIGHT / 2) ^ 2

/-- The collision test of `Ball.update`:
`next_center_dist - radius < TRACK_INNER_RADIUS or
 next_center_dist + radius > TRACK_OUTER_RADIUS`,
expressed on the squared distance (see `collision_test_iff_sqrt`). -/
def collision_test (nd2 r : ℚ) : Prop :=
  nd2 < (TRACK_INNER_RADIUS + r) ^ 2 ∨ (TRACK_OUTER_RADIUS - r) ^ 2 < nd2

instance (nd2 r : ℚ) : Decidable (collision_test nd2 r) := by
  unfold collision_test; infer_instance

/-- Method `Ball.update(self, walls)` from `main.py` (the `walls` parameter is unused
by the source body and is omitted).  Only acts when `moving`; rejects the move
and hard-stops on collision with the annulus walls, otherwise commits the
tentative position, applies friction, and stops when both velocity components
fall below `0.1` in absolute value. -/
def Ball.update (b : Ball) : Ball :=
  if b.moving then
    let next_x := b.x + b.vx
    let next_y := b.y + b.vy
    let nd2 := (next_x - WIDTH / 2) ^ 2 + (next_y - HEIGHT / 2) ^ 2
    if collision_test nd2 b.radius then
      { b with vx := 0, vy := 0, moving := false }
    else
      let vx' := b.vx * FRICTION
      let vy' := b.vy * FRICTION
      if |vx'| < 1 / 10 ∧ |vy'| < 1 / 10 then
        { b with x := next_x, y := next_y, vx := 0, vy := 0, moving := false }
      else
        { b with x := next_x, y := next_y, vx := vx', vy := vy' }
  else b

/-- Method `Ball.start_drag(self, x, y)`: begins aiming, only if the ball is not
moving. -/
def Ball.start_drag (b : Ball) (px py : ℚ) : Ball :=
  if b.moving then b
  else { b with dragging := true, start_drag_x := px, start_drag_y := py }

/-- Method `Ball.end_drag(self)`: if dragging, clears the flag, sets the velocity to
the anchor-to-ball vector scaled by `0.1`, marks the ball moving and reports
`true`; otherwise reports `false` and changes nothing. -/
def Ball.end_drag (b : Ball) : Bool × Ball :=
  if b.dragging then
    let dx := b.x - b.start_drag_x
    let dy := b.y - b.start_drag_y
    let scale : ℚ := 1 / 10
    (true, { b with dragging := false, vx := dx * scale, vy := dy * scale, moving := true })
  else (false, b)

/-- Squared point-to-segment distance, as computed inside
`check_finish_line`: the scalar projection parameter is clamped to `[0, 1]`,
and the returned value is the squared Euclidean distance to the resulting
closest point.  (The source divides by `line_length ** 2`, which equals the
squared length exactly.) -/
def seg_dist2 (px py x1 y1 x2 y2 : ℚ) : ℚ :=
  let len2 := (x2 - x1) ^ 2 + (y2 - y1) ^ 2
  let t := max 0 (min 1 (((px - x1) * (x2 - x1) + (py - y1) * (y2 - y1)) / len2))
  let proj_x := x1 + t * (x2 - x1)
  let proj_y := y1 + t * (y2 - y1)
  (px - proj_x) ^ 2 + (py - proj_y) ^ 2

/-- Function `check_finish_line(ball, finish_line_points, check_moving=True)` from
`main.py`: a zero-length segment never matches; otherwise the ball matches
when its distance to the segment is below `radius + 5`, and additionally
(when `check_moving`) the ball is not moving.  The distance comparison is
expressed on squares (see `close_test_iff_sqrt`). -/
def check_finish_line (b : Ball) (p : ℚ × ℚ × ℚ × ℚ) (check_moving : Bool) : Bool :=
  let (x1, y1, x2, y2) := p
  let len2 := (x2 - x1) ^ 2 + (y2 - y1) ^ 2
  if len2 = 0 then false
  else
    let d2 := seg_dist2 b.x b.y x1 y1 x2 y2
    if check_moving then decide (d2 < (b.radius + 5) ^ 2) && !b.moving
    else decide (d2 < (b.radius + 5) ^ 2)

/-- Track center x-coordinate, `center_x = WIDTH / 2`. -/
def center_x : ℚ := WIDTH / 2

/-- Track center y-coordinate, `center_y = HEIGHT / 2`. -/
def center_y : ℚ := HEIGHT / 2

/-- The finish line segment of `main`: at angle 90° (`cos = 0`, `sin = 1`),
from the inner circle to the outer circle: `(400, 450)` to `(400, 550)`. -/
def finish_line_points : ℚ × ℚ × ℚ × ℚ :=
  (center_x, center_y + TRACK_INNER_RADIUS, center_x, center_y + TRACK_OUTER_RADIUS)

/-- Value `start_radius`: radial midpoint of the track. -/
def start_radius : ℚ := TRACK_INNER_RADIUS + (TRACK_OUTER_RADIUS - TRACK_INNER_RADIUS) / 2

/-- Ball start x: angle 180° (`cos = -1`), so `center_x - start_radius = 200`. -/
def ball_x : ℚ := center_x - start_radius

/-- Ball start y: angle 180° (`sin = 0`), so `center_y = 300`. -/
def ball_y : ℚ := center_y

/-- The full mutable state of `main`'s game loop. -/
structure GameState where
  ball : Ball
  best_score : Option ℕ
  laps_completed : ℕ
  previous_lap_score : ℕ
  crossed_finish_line : Bool
  move_count : ℕ
  game_over : Bool
deriving DecidableEq, Repr

/-- The initial game state of `main`: fresh ball at the start position, no
best score (`float('inf')`), zero laps and moves. -/
def initState : GameState :=
  { ball := Ball.init ball_x ball_y BALL_RADIUS, best_score := none
    laps_completed := 0, previous_lap_score := 0, crossed_finish_line := false
    move_count := 0, game_over := false }

/-- Comparison `move_count < best_score` with `best_score` initially `float('inf')`:
`none` (infinity) is beaten by every count. -/
def movesBeatsBest (mc : ℕ) : Option ℕ → Bool
  | none => true
  | some b => decide (mc < b)

/-- Event `MOUSEBUTTONDOWN` handling: start a drag when the game is not over and
the ball is not moving. -/
def handle_mouseDown (s : GameState) (px py : ℚ) : GameState :=
  if !s.game_over && !s.ball.moving then { s with ball := s.ball.start_drag px py } else s

/-- Event `MOUSEMOTION` handling: while dragging, move the drag anchor to the
pointer. -/
def handle_mouseMotion (s : GameState) (px py : ℚ) : GameState :=
  if s.ball.dragging then
    { s with ball := { s.ball with start_drag_x := px, start_drag_y := py } }
  else s

/-- Event `MOUSEBUTTONUP` handling: `ball.end_drag()` always runs; the move counter
increments only when a launch occurred and the game is not over. -/
def handle_mouseUp (s : GameState) : GameState :=
  let r := s.ball.end_drag
  { s with
    ball := r.2
    move_count := if r.1 && !s.game_over then s.move_count + 1 else s.move_count }

/-- Key `K_r` handling: replace the ball by a fresh instance at the start
position, zero the move counter, clear `game_over`.  Nothing else changes. -/
def handle_keyR (s : GameState) : GameState :=
  { s with ball := Ball.init ball_x ball_y BALL_RADIUS, move_count := 0, game_over := false }

/-- The finish-line check block of the game loop, applied to the
post-physics state: on the lap-completion edge (ball moving, on the line,
flag clear) it records the lap and resets ball and move counter; while off
the line it clears the edge flag; otherwise it does nothing. -/
def lap_check (s : GameState) : GameState :=
  if s.ball.moving && check_finish_line s.ball finish_line_points false then
    if !s.crossed_finish_line then
      { s with
        crossed_finish_line := true
        laps_completed := s.laps_completed + 1
        previous_lap_score := s.move_count
        best_score := if movesBeatsBest s.move_count s.best_score then
            some s.move_count else s.best_score
        ball := Ball.init ball_x ball_y BALL_RADIUS
        move_count := 0 }
    else s
  else if !(check_finish_line s.ball finish_line_points false) then
    { s with crossed_finish_line := false }
  else s

/-- One pass of the per-frame update section of the game loop (`if not
game_over:` … physics step, then finish-line logic). -/
def frame (s : GameState) : GameState :=
  if s.game_over then s
  else lap_check { s with ball := s.ball.update }

/-- Squared distance from the ball's *current* position to the track
center (used to state claims about balls strictly inside the annulus). -/
def curr_dist2 (b : Ball) : ℚ :=
  (b.x - WIDTH / 2) ^ 2 + (b.y - HEIGHT / 2) ^ 2

/-- Concrete ball at the start position, moving right at 1000 units/frame:
its tentative next position is far outside the outer wall. -/
def bFast : Ball := ⟨200, 300, 10, 1000, 0, true, 0, 0, false⟩

/-- Concrete ball at the start position, moving right at 30 units/frame: the
move stays inside the annulus and friction leaves it above the stop
threshold. -/
def bGlide : Ball := ⟨200, 300, 10, 30, 0, true, 0, 0, false⟩

/-- Concrete ball that is not dragging. -/
def bNoDrag : Ball := ⟨5, 7, 10, 0, 0, false, 2, 3, false⟩

/-- Concrete ball that is dragging, with anchor `(2, 3)`. -/
def bDrag : Ball := ⟨5, 7, 10, 0, 0, false, 2, 3, true⟩

/-- A ball of radius 10 parked at `(400, 500)` — the midpoint of the finish
line — with the given motion flag. -/
def onLineBall (m : Bool) : Ball := ⟨400, 500, 10, 0, 0, m, 0, 0, false⟩

/-- Replace the ball of a state by `onLineBall m` (a ball pinned to the
finish line), leaving the session fields alone. -/
def pin (s : GameState) (m : Bool) : GameState := { s with ball := onLineBall m }

/-- Stage a lap-completion edge: ball moving on the finish line, the given
move count, edge flag clear. -/
def lapInput (s : GameState) (mc : ℕ) : GameState :=
  { s with
    ball := onLineBall true
    move_count := mc
    crossed_finish_line := false }

/-- Drive `lap_check` through a sequence of lap completions (one staged edge
per entry), collecting `best_score` and `previous_lap_score` after each. -/
def runLaps : GameState → List ℕ → List (Option ℕ × ℕ)
  | _, [] => []
  | s, mc :: rest =>
    let s' := lap_check (lapInput s mc)
    (s'.best_score, s'.previous_lap_score) :: runLaps s' rest

/-- Frame 1 of the lingering scenario: ball pinned to the finish line and
moving; the lap check runs. -/
def pinnedFrame1 : GameState := lap_check (pin initState true)

/-- Frame 2: ball still pinned to the line but no longer moving. -/
def pinnedFrame2 : GameState := lap_check (pin pinnedFrame1 false)

/-- Frame 3: same as frame 2. -/
def pinnedFrame3 : GameState := lap_check (pin pinnedFrame2 false)

/-- A state with recorded scores, used to observe what a manual reset
keeps. -/
def sScores : GameState :=
  { initState with laps_completed := 3, best_score := some 2, previous_lap_score := 7 }

/-- A state with the edge flag set, used to observe that a manual reset does
not clear it. -/
def sCross : GameState := { initState with crossed_finish_line := true }

/-- Ball states reachable from the initial ball by the operations of the
program: `start_drag`, the `MOUSEMOTION` anchor update, `end_drag`,
`update`, and the two ball replacements (lap completion and manual reset),
in any order. -/
inductive BallReach : Ball → Prop
  | init : BallReach (Ball.init ball_x ball_y BALL_RADIUS)
  | drag_start (b : Ball) (px py : ℚ) : BallReach b → BallReach (b.start_drag px py)
  | drag_move (b : Ball) (px py : ℚ) : BallReach b →
      BallReach (if b.dragging then { b with start_drag_x := px, start_drag_y := py } else b)
  | drag_end (b : Ball) : BallReach b → BallReach (b.end_drag).2
  | step (b : Ball) : BallReach b → BallReach b.update
  | lap_reset (b : Ball) : BallReach b → BallReach (Ball.init ball_x ball_y BALL_RADIUS)
  | manual_reset (b : Ball) : BallReach b → BallReach (Ball.init ball_x ball_y BALL_RADIUS)

/-- Game states reachable from `initState` by the event handlers and frame
updates of the game loop, in any order. -/
inductive GameReach : GameState → Prop
  | init : GameReach initState
  | mouseDown (s : GameState) (px py : ℚ) : GameReach s → GameReach (handle_mouseDown s px py)
  | mouseMotion (s : GameState) (px py : ℚ) : GameReach s → GameReach (handle_mouseMotion s px py)
  | mouseUp (s : GameState) : GameReach s → GameReach (handle_mouseUp s)
  | keyR (s : GameState) : GameReach s → GameReach (handle_keyR s)
  | frame (s : GameState) : GameReach s → GameReach (frame s)

/-- The inductive invariant of the game loop: `game_over` never becomes
true, a moving ball always has at least one recorded move, any recorded
best score is at least 1, and once a lap exists the previous-lap score is
at least 1. -/
def Inv (s : GameState) : Prop :=
  s.game_over = false ∧
  (s.ball.moving = true → 1 ≤ s.move_count) ∧
  (∀ n, s.best_score = some n → 1 ≤ n) ∧
  (1 ≤ s.laps_completed → 1 ≤ s.previous_lap_score)

/-!
## Bridging lemmas

The source compares `math.sqrt(d2) ± radius` against the track radii and
`math.sqrt(d2)` against `radius + 5`; the executable embedding compares `d2`
against the squared bounds.  The lemmas here prove the two formulations
equivalent for the radii the program can produce (every ball is constructed
with radius `BALL_RADIUS = 10`).
-/

lemma next_dist2_nonneg (b : Ball) : 0 ≤ next_dist2 b := by
  unfold next_dist2; positivity

/-- The squared collision test agrees with the source's literal
`sqrt(d2) - r < 150 or sqrt(d2) + r > 250` test whenever `0 ≤ r ≤ 250`. -/
lemma collision_test_iff_sqrt (nd2 r : ℚ) (hr0 : 0 ≤ r) (hro : r ≤ 250) :
    collision_test nd2 r ↔
      (Real.sqrt (nd2 : ℝ) - (r : ℝ) < 150 ∨ (250 : ℝ) < Real.sqrt (nd2 : ℝ) + (r : ℝ)) := by
  have hr0R : (0 : ℝ) ≤ (r : ℝ) := by exact_mod_cast hr0
  have hroR : (r : ℝ) ≤ 250 := by exact_mod_cast hro
  have hpos : (0 : ℝ) < 150 + (r : ℝ) := by linarith
  have c1 : nd2 < (150 + r) ^ 2 ↔ Real.sqrt (nd2 : ℝ) < 150 + (r : ℝ) := by
    rw [Real.sqrt_lt' hpos]
    constructor
    · intro h; exact_mod_cast h
    · intro h; exact_mod_cast h
  have c2 : (250 - r) ^ 2 < nd2 ↔ (250 : ℝ) - (r : ℝ) < Real.sqrt (nd2 : ℝ) := by
    rw [Real.lt_sqrt (by linarith)]
    constructor
    · intro h; exact_mod_cast h
    · intro h; exact_mod_cast h
  unfold collision_test TRACK_INNER_RADIUS TRACK_OUTER_RADIUS
  constructor
  · rintro (h | h)
    · left; have := c1.mp h; linarith
    · right; have := c2.mp h; linarith
  · rintro (h | h)
    · left; exact c1.mpr (by linarith)
    · right; exact c2.mpr (by linarith)

/-- The squared closeness test of `check_finish_line` agrees with the
source's literal `distance < radius + 5` test whenever `0 ≤ r`. -/
lemma close_test_iff_sqrt (d2 r : ℚ) (hr0 : 0 ≤ r) :
    d2 < (r + 5) ^ 2 ↔ Real.sqrt (d2 : ℝ) < (r : ℝ) + 5 := by
  have hr0R : (0 : ℝ) ≤ (r : ℝ) := by exact_mod_cast hr0
  rw [Real.sqrt_lt' (by linarith)]
  constructor
  · intro h; exact_mod_cast h
  · intro h; exact_mod_cast h

/-- Unfolded form of `Ball.update` on a moving ball that fails the
collision test: the squared test written out on `next_dist2`. -/
lemma update_of_collision (b : Ball) (hm : b.moving = true)
    (hc : collision_test (next_dist2 b) b.radius) :
    b.update = { b with vx := 0, vy := 0, moving := false } := by
  have hc' : collision_test
      ((b.x + b.vx - WIDTH / 2) ^ 2 + (b.y + b.vy - HEIGHT / 2) ^ 2) b.radius := by
    simpa [next_dist2] using hc
  unfold Ball.update
  simp [hm, hc']

/-- Lemma about `Ball.update` on a moving ball that passes the collision test: the
position commits and friction applies, with the small-velocity stop. -/
lemma update_of_no_collision (b : Ball) (hm : b.moving = true)
    (hc : ¬ collision_test (next_dist2 b) b.radius) :
    b.update =
      (if |b.vx * FRICTION| < 1 / 10 ∧ |b.vy * FRICTION| < 1 / 10 then
        { b with x := b.x + b.vx, y := b.y + b.vy, vx := 0, vy := 0, moving := false }
      else
        { b with x := b.x + b.vx, y := b.y + b.vy,
                 vx := b.vx * FRICTION, vy := b.vy * FRICTION }) := by
  have hc' : ¬ collision_test
      ((b.x + b.vx - WIDTH / 2) ^ 2 + (b.y + b.vy - HEIGHT / 2) ^ 2) b.radius := by
    simpa [next_dist2] using hc
  unfold Ball.update
  simp [hm, hc']

/-- Evaluation of `Real.sqrt` at the cast of a rational perfect square. -/
lemma sqrt_rat_sq (q : ℚ) (h : 0 ≤ q) : Real.sqrt ((q ^ 2 : ℚ) : ℝ) = (q : ℝ) := by
  push_cast
  exact Real.sqrt_sq (by exact_mod_cast h)

/-- C1: a moving ball whose tentative next position fails the annulus test
(center distance minus radius below the inner radius, or plus radius above
the outer radius) is hard-stopped by one `Ball.update`: position unchanged,
both velocity components zeroed, `moving` cleared.  (Every ball the program
constructs has radius `10`, whence the radius bounds.) -/
theorem C1_wall_collision_hard_stop (b : Ball) (hm : b.moving = true)
    (hr0 : 0 ≤ b.radius) (hro : b.radius ≤ TRACK_OUTER_RADIUS)
    (hcol : Real.sqrt (next_dist2 b : ℝ) - (b.radius : ℝ) < (TRACK_INNER_RADIUS : ℝ) ∨
            (TRACK_OUTER_RADIUS : ℝ) < Real.sqrt (next_dist2 b : ℝ) + (b.radius : ℝ)) :
    (b.update).x = b.x ∧ (b.update).y = b.y ∧ (b.update).vx = 0 ∧
      (b.update).vy = 0 ∧ (b.update).moving = false := by
  have hro' : b.radius ≤ 250 := by simpa [TRACK_OUTER_RADIUS] using hro
  have hc : collision_test (next_dist2 b) b.radius := by
    rw [collision_test_iff_sqrt _ _ hr0 hro']
    simpa [TRACK_INNER_RADIUS, TRACK_OUTER_RADIUS] using hcol
  rw [update_of_collision b hm hc]
  exact ⟨rfl, rfl, rfl, rfl, rfl⟩

/-- Witness for C1 at `bFast`: the tentative next position is at distance
800 from the center, beyond the outer wall. -/
theorem C1_wall_collision_hard_stop_witness :
    (bFast.update).x = bFast.x ∧ (bFast.update).y = bFast.y ∧ (bFast.update).vx = 0 ∧
      (bFast.update).vy = 0 ∧ (bFast.update).moving = false := by
  have hnd : next_dist2 bFast = 800 ^ 2 := by norm_num [next_dist2, bFast, WIDTH, HEIGHT]
  have hs : Real.sqrt (next_dist2 bFast : ℝ) = 800 := by
    rw [hnd]; exact sqrt_rat_sq 800 (by norm_num)
  refine C1_wall_collision_hard_stop bFast rfl (by norm_num [bFast])
    (by norm_num [bFast, TRACK_OUTER_RADIUS]) (Or.inr ?_)
  rw [hs]
  norm_num [bFast, TRACK_OUTER_RADIUS]

/-- C2: a moving ball whose tentative next position passes the annulus test
commits the move, then scales both velocity components by the friction
factor `0.98`; if both scaled components drop below `0.1` in absolute value
the velocity is zeroed and `moving` cleared, otherwise `moving` stays true
and the velocity is exactly the scaled one. -/
theorem C2_friction_step (b : Ball) (hm : b.moving = true) (hr0 : 0 ≤ b.radius)
    (hpass1 : (TRACK_INNER_RADIUS : ℝ) ≤ Real.sqrt (next_dist2 b : ℝ) - (b.radius : ℝ))
    (hpass2 : Real.sqrt (next_dist2 b : ℝ) + (b.radius : ℝ) ≤ (TRACK_OUTER_RADIUS : ℝ)) :
    (b.update).x = b.x + b.vx ∧ (b.update).y = b.y + b.vy ∧
    ((|b.vx * FRICTION| < 1 / 10 ∧ |b.vy * FRICTION| < 1 / 10) →
      (b.update).vx = 0 ∧ (b.update).vy = 0 ∧ (b.update).moving = false) ∧
    (¬ (|b.vx * FRICTION| < 1 / 10 ∧ |b.vy * FRICTION| < 1 / 10) →
      (b.update).vx = b.vx * FRICTION ∧ (b.update).vy = b.vy * FRICTION ∧
        (b.update).moving = true) := by
  have hro' : b.radius ≤ 250 := by
    have h0 : (0 : ℝ) ≤ Real.sqrt (next_dist2 b : ℝ) := Real.sqrt_nonneg _
    have : (b.radius : ℝ) ≤ 250 := by
      simp only [TRACK_OUTER_RADIUS] at hpass2
      push_cast at hpass2 ⊢
      linarith
    exact_mod_cast this
  have hnc : ¬ collision_test (next_dist2 b) b.radius := by
    rw [collision_test_iff_sqrt _ _ hr0 hro']
    push_neg
    constructor
    · simpa [TRACK_INNER_RADIUS] using hpass1
    · simpa [TRACK_OUTER_RADIUS] using hpass2
  rcases Classical.em (|b.vx * FRICTION| < 1 / 10 ∧ |b.vy * FRICTION| < 1 / 10) with hth | hth
  · rw [update_of_no_collision b hm hnc, if_pos hth]
    exact ⟨rfl, rfl, fun _ => ⟨rfl, rfl, rfl⟩, fun hcon => absurd hth hcon⟩
  · rw [update_of_no_collision b hm hnc, if_neg hth]
    exact ⟨rfl, rfl, fun hcon => absurd hcon hth, fun _ => ⟨rfl, rfl, hm⟩⟩

/-- Witness for C2 at `bGlide`: the next position is at distance 170 from the
center, safely inside the annulus, and the scaled velocity `29.4` is above the
stop threshold. -/
theorem C2_friction_step_witness :
    (bGlide.update).x = bGlide.x + bGlide.vx ∧ (bGlide.update).y = bGlide.y + bGlide.vy ∧
    ((|bGlide.vx * FRICTION| < 1 / 10 ∧ |bGlide.vy * FRICTION| < 1 / 10) →
      (bGlide.update).vx = 0 ∧ (bGlide.update).vy = 0 ∧ (bGlide.update).moving = false) ∧
    (¬ (|bGlide.vx * FRICTION| < 1 / 10 ∧ |bGlide.vy * FRICTION| < 1 / 10) →
      (bGlide.update).vx = bGlide.vx * FRICTION ∧ (bGlide.update).vy = bGlide.vy * FRICTION ∧
        (bGlide.update).moving = true) := by
  have hnd : next_dist2 bGlide = 170 ^ 2 := by norm_num [next_dist2, bGlide, WIDTH, HEIGHT]
  have hs : Real.sqrt (next_dist2 bGlide : ℝ) = 170 := by
    rw [hnd]; exact sqrt_rat_sq 170 (by norm_num)
  refine C2_friction_step bGlide rfl (by norm_num [bGlide]) ?_ ?_
  · rw [hs]; norm_num [bGlide, TRACK_INNER_RADIUS]
  · rw [hs]; norm_num [bGlide, TRACK_OUTER_RADIUS]

/-- C6: `Ball.end_drag` on a non-dragging ball reports `false` and changes
nothing; on a dragging ball it always clears `dragging`, sets `moving`, sets
the velocity to the anchor-to-ball vector scaled by `0.1`, and reports
`true` — for every drag distance, including zero-length drags. -/
theorem C6_end_drag (b : Ball) :
    (b.dragging = false → b.end_drag = (false, b)) ∧
    (b.dragging = true →
      b.end_drag = (true,
        { b with dragging := false, moving := true,
                 vx := (b.x - b.start_drag_x) * (1 / 10),
                 vy := (b.y - b.start_drag_y) * (1 / 10) })) := by
  constructor
  · intro h; unfold Ball.end_drag; simp [h]
  · intro h; unfold Ball.end_drag; simp [h]

/-- Witness for C6 at the non-dragging `bNoDrag` and the dragging `bDrag`. -/
theorem C6_end_drag_witness :
    bNoDrag.end_drag = (false, bNoDrag) ∧
    bDrag.end_drag = (true,
      { bDrag with dragging := false, moving := true,
                   vx := (bDrag.x - bDrag.start_drag_x) * (1 / 10),
                   vy := (bDrag.y - bDrag.start_drag_y) * (1 / 10) }) :=
  ⟨(C6_end_drag bNoDrag).1 rfl, (C6_end_drag bDrag).2 rfl⟩

/-- C9 (as amended): a *moving* ball whose *tentative next* position is
strictly inside the annulus moves by exactly its velocity vector, and stays
moving unless the friction-scaled velocity crosses the stop threshold in
that same step. -/
theorem C9_interior_step (b : Ball) (hm : b.moving = true) (hr0 : 0 ≤ b.radius)
    (hin1 : (TRACK_INNER_RADIUS : ℝ) + (b.radius : ℝ) < Real.sqrt (next_dist2 b : ℝ))
    (hin2 : Real.sqrt (next_dist2 b : ℝ) < (TRACK_OUTER_RADIUS : ℝ) - (b.radius : ℝ)) :
    (b.update).x = b.x + b.vx ∧ (b.update).y = b.y + b.vy ∧
    (¬ (|b.vx * FRICTION| < 1 / 10 ∧ |b.vy * FRICTION| < 1 / 10) →
      (b.update).moving = true) := by
  have h := C2_friction_step b hm hr0
    (by simp only [TRACK_INNER_RADIUS] at hin1 ⊢; linarith)
    (by simp only [TRACK_OUTER_RADIUS] at hin2 ⊢; linarith)
  exact ⟨h.1, h.2.1, fun hth => (h.2.2.2 hth).2.2⟩

/-- Witness for C9 at `bGlide`. -/
theorem C9_interior_step_witness :
    (bGlide.update).x = bGlide.x + bGlide.vx ∧ (bGlide.update).y = bGlide.y + bGlide.vy ∧
    (¬ (|bGlide.vx * FRICTION| < 1 / 10 ∧ |bGlide.vy * FRICTION| < 1 / 10) →
      (bGlide.update).moving = true) := by
  have hnd : next_dist2 bGlide = 170 ^ 2 := by norm_num [next_dist2, bGlide, WIDTH, HEIGHT]
  have hs : Real.sqrt (next_dist2 bGlide : ℝ) = 170 := by
    rw [hnd]; exact sqrt_rat_sq 170 (by norm_num)
  refine C9_interior_step bGlide rfl (by norm_num [bGlide]) ?_ ?_
  · rw [hs]; norm_num [bGlide, TRACK_INNER_RADIUS]
  · rw [hs]; norm_num [bGlide, TRACK_OUTER_RADIUS]

/-- Counterexample to C9 as stated: `bFast` sits strictly inside the annulus
(center distance 200, and 160 < 200 < 240), is moving, and its friction-scaled
velocity is far above the stop threshold — yet one `Ball.update` does not move
it by its velocity vector, and clears `moving`, because the collision test is
evaluated at the *tentative next* position, not the current one. -/
theorem C9_counterexample :
    (TRACK_INNER_RADIUS : ℝ) + (bFast.radius : ℝ) < Real.sqrt (curr_dist2 bFast : ℝ) ∧
    Real.sqrt (curr_dist2 bFast : ℝ) < (TRACK_OUTER_RADIUS : ℝ) - (bFast.radius : ℝ) ∧
    bFast.moving = true ∧
    ¬ (|bFast.vx * FRICTION| < 1 / 10 ∧ |bFast.vy * FRICTION| < 1 / 10) ∧
    (bFast.update).x ≠ bFast.x + bFast.vx ∧
    (bFast.update).moving = false := by
  have hcd : curr_dist2 bFast = 200 ^ 2 := by norm_num [curr_dist2, bFast, WIDTH, HEIGHT]
  have hs : Real.sqrt (curr_dist2 bFast : ℝ) = 200 := by
    rw [hcd]; exact sqrt_rat_sq 200 (by norm_num)
  have hc : collision_test (next_dist2 bFast) bFast.radius := by
    norm_num [collision_test, next_dist2, bFast, WIDTH, HEIGHT,
      TRACK_INNER_RADIUS, TRACK_OUTER_RADIUS]
  have he : bFast.update = { bFast with vx := 0, vy := 0, moving := false } :=
    update_of_collision bFast rfl hc
  refine ⟨?_, ?_, rfl, ?_, ?_, ?_⟩
  · rw [hs]; norm_num [bFast, TRACK_INNER_RADIUS]
  · rw [hs]; norm_num [bFast, TRACK_OUTER_RADIUS]
  · norm_num [bFast, FRICTION]
  · rw [he]; norm_num [bFast]
  · rw [he]

/-- The squared point-to-segment distance of the embedding, cast to `ℝ`,
is exactly the real-arithmetic clamped-projection computation of the
source. -/
lemma seg_dist2_cast (px py x1 y1 x2 y2 : ℚ) :
    ((seg_dist2 px py x1 y1 x2 y2 : ℚ) : ℝ) =
      ((px : ℝ) - ((x1 : ℝ) +
          max 0 (min 1 ((((px : ℝ) - x1) * ((x2 : ℝ) - x1) +
            ((py : ℝ) - y1) * ((y2 : ℝ) - y1)) /
            (((x2 : ℝ) - x1) ^ 2 + ((y2 : ℝ) - y1) ^ 2))) * ((x2 : ℝ) - x1))) ^ 2 +
      ((py : ℝ) - ((y1 : ℝ) +
          max 0 (min 1 ((((px : ℝ) - x1) * ((x2 : ℝ) - x1) +
            ((py : ℝ) - y1) * ((y2 : ℝ) - y1)) /
            (((x2 : ℝ) - x1) ^ 2 + ((y2 : ℝ) - y1) ^ 2))) * ((y2 : ℝ) - y1))) ^ 2 := by
  simp only [seg_dist2]
  push_cast
  ring_nf

/-- C5: for a non-degenerate segment, `check_finish_line` holds iff the
Euclidean distance from the ball center to the closest point of the segment
(scalar projection parameter clamped to `[0, 1]`, computed over the reals)
is strictly below `radius + 5`, and — when the stopped flag is required —
the ball is not moving; and for a zero-length segment it is false for every
ball and every flag. -/
theorem C5_check_finish_line_spec :
    (∀ (b : Ball) (x1 y1 x2 y2 : ℚ) (flag : Bool), 0 ≤ b.radius →
      (x2 - x1) ^ 2 + (y2 - y1) ^ 2 ≠ 0 →
      (check_finish_line b (x1, y1, x2, y2) flag = true ↔
        (Real.sqrt
            (((b.x : ℝ) - ((x1 : ℝ) +
                max 0 (min 1 ((((b.x : ℝ) - x1) * ((x2 : ℝ) - x1) +
                  ((b.y : ℝ) - y1) * ((y2 : ℝ) - y1)) /
                  (((x2 : ℝ) - x1) ^ 2 + ((y2 : ℝ) - y1) ^ 2))) * ((x2 : ℝ) - x1))) ^ 2 +
             ((b.y : ℝ) - ((y1 : ℝ) +
                max 0 (min 1 ((((b.x : ℝ) - x1) * ((x2 : ℝ) - x1) +
                  ((b.y : ℝ) - y1) * ((y2 : ℝ) - y1)) /
                  (((x2 : ℝ) - x1) ^ 2 + ((y2 : ℝ) - y1) ^ 2))) * ((y2 : ℝ) - y1))) ^ 2) <
          (b.radius : ℝ) + 5 ∧
         (flag = true → b.moving = false)))) ∧
    (∀ (b : Ball) (x y : ℚ) (flag : Bool), check_finish_line b (x, y, x, y) flag = false) := by
  constructor
  · intro b x1 y1 x2 y2 flag hr hlen
    have hclose := close_test_iff_sqrt (seg_dist2 b.x b.y x1 y1 x2 y2) b.radius hr
    rw [← seg_dist2_cast b.x b.y x1 y1 x2 y2]
    simp only [check_finish_line]
    rw [if_neg hlen]
    cases flag with
    | false =>
        simp only [Bool.false_eq_true, false_implies, and_true, Bool.if_false_right,
          Bool.if_false_left, Bool.and_true, if_false, decide_eq_true_eq]
        exact hclose
    | true =>
        simp only [if_true, Bool.and_eq_true, decide_eq_true_eq, Bool.not_eq_true']
        exact and_congr hclose (by simp)
  · intro b x y flag
    unfold check_finish_line
    simp

/-- Witness for C5 at `onLineBall false` against the program's finish
segment `(400, 450)`–`(400, 550)` with the stopped flag required. -/
theorem C5_check_finish_line_spec_witness :
    check_finish_line (onLineBall false) (400, 450, 400, 550) true = true ↔
      (Real.sqrt
          ((((onLineBall false).x : ℝ) - ((400 : ℚ) +
              max 0 (min 1 (((((onLineBall false).x : ℝ) - (400 : ℚ)) * (((400 : ℚ) : ℝ) - (400 : ℚ)) +
                (((onLineBall false).y : ℝ) - (450 : ℚ)) * (((550 : ℚ) : ℝ) - (450 : ℚ))) /
                ((((400 : ℚ) : ℝ) - (400 : ℚ)) ^ 2 + (((550 : ℚ) : ℝ) - (450 : ℚ)) ^ 2))) *
                (((400 : ℚ) : ℝ) - (400 : ℚ)))) ^ 2 +
           (((onLineBall false).y : ℝ) - ((450 : ℚ) +
              max 0 (min 1 (((((onLineBall false).x : ℝ) - (400 : ℚ)) * (((400 : ℚ) : ℝ) - (400 : ℚ)) +
                (((onLineBall false).y : ℝ) - (450 : ℚ)) * (((550 : ℚ) : ℝ) - (450 : ℚ))) /
                ((((400 : ℚ) : ℝ) - (400 : ℚ)) ^ 2 + (((550 : ℚ) : ℝ) - (450 : ℚ)) ^ 2))) *
                (((550 : ℚ) : ℝ) - (450 : ℚ)))) ^ 2) <
        ((onLineBall false).radius : ℝ) + 5 ∧
       (true = true → (onLineBall false).moving = false)) :=
  C5_check_finish_line_spec.1 (onLineBall false) 400 450 400 550 true
    (by norm_num [onLineBall]) (by norm_num)

/-- The parked ball is on the finish line (its center sits on the segment),
for either motion flag, when the stopped requirement is waived. -/
lemma onLine_check (m : Bool) :
    check_finish_line (onLineBall m) finish_line_points false = true := by
  norm_num [check_finish_line, seg_dist2, finish_line_points, onLineBall, center_x, center_y,
    WIDTH, HEIGHT, TRACK_INNER_RADIUS, TRACK_OUTER_RADIUS, min_def, max_def]

lemma onLineBall_moving (m : Bool) : (onLineBall m).moving = m := rfl

/-- On the lap-completion edge, `lap_check` takes exactly the lap branch of
the source. -/
lemma lap_check_edge (s : GameState) (hm : s.ball.moving = true)
    (hchk : check_finish_line s.ball finish_line_points false = true)
    (hcr : s.crossed_finish_line = false) :
    lap_check s =
      { s with
        crossed_finish_line := true
        laps_completed := s.laps_completed + 1
        previous_lap_score := s.move_count
        best_score := if movesBeatsBest s.move_count s.best_score then
            some s.move_count else s.best_score
        ball := Ball.init ball_x ball_y BALL_RADIUS
        move_count := 0 } := by
  unfold lap_check
  rw [hm, hchk, hcr]
  simp

/-- C3: the lap-completion edge performs exactly the bookkeeping of the
claim — edge flag set, lap counted, previous score recorded, best score
updated to the minimum of the old best and the move count (taking the move
count when no best exists), ball replaced by a fresh instance, move counter
cleared; and over four staged laps with move counts `[5, 3, 7, 2]` the best
scores read `[5, 3, 3, 2]` and the previous scores `[5, 3, 7, 2]`. -/
theorem C3_lap_bookkeeping :
    (∀ s : GameState, s.ball.moving = true →
      check_finish_line s.ball finish_line_points false = true →
      s.crossed_finish_line = false →
      lap_check s =
        { s with
          crossed_finish_line := true
          laps_completed := s.laps_completed + 1
          previous_lap_score := s.move_count
          best_score := some (match s.best_score with
            | none => s.move_count
            | some b => min b s.move_count)
          ball := Ball.init ball_x ball_y BALL_RADIUS
          move_count := 0 }) ∧
    runLaps initState [5, 3, 7, 2] = [(some 5, 5), (some 3, 3), (some 3, 7), (some 2, 2)] := by
  constructor
  · intro s hm hchk hcr
    have hbest : (if movesBeatsBest s.move_count s.best_score then
          some s.move_count else s.best_score) =
        some (match s.best_score with
          | none => s.move_count
          | some b => min b s.move_count) := by
      cases hb : s.best_score with
      | none => simp [movesBeatsBest]
      | some b =>
          simp only [movesBeatsBest]
          by_cases h : s.move_count < b
          · rw [if_pos (by simpa using h)]
            have hmin : min b s.move_count = s.move_count := by omega
            rw [hmin]
          · rw [if_neg (by simpa using h)]
            have hmin : min b s.move_count = b := by omega
            rw [hmin]
    rw [lap_check_edge s hm hchk hcr, hbest]
  · simp [runLaps, lapInput, lap_check, onLine_check, onLineBall_moving, movesBeatsBest,
      initState, Ball.init]

/-- Witness for C3 on a staged edge with move count 5. -/
theorem C3_lap_bookkeeping_witness :
    lap_check (lapInput initState 5) =
      { lapInput initState 5 with
        crossed_finish_line := true
        laps_completed := (lapInput initState 5).laps_completed + 1
        previous_lap_score := (lapInput initState 5).move_count
        best_score := some (match (lapInput initState 5).best_score with
          | none => (lapInput initState 5).move_count
          | some b => min b (lapInput initState 5).move_count)
        ball := Ball.init ball_x ball_y BALL_RADIUS
        move_count := 0 } :=
  C3_lap_bookkeeping.1 (lapInput initState 5) rfl (onLine_check true) rfl

/-- C4: the per-frame lap check increments `laps_completed` iff the ball is
moving, on the finish line, and the edge flag was clear; and in the
three-frame lingering scenario (ball pinned to the line, moving only on
frame 1) the lap count is 1 after every frame — the increment happens
exactly once, on frame 1. -/
theorem C4_lap_edge_detection :
    (∀ s : GameState,
      ((lap_check s).laps_completed = s.laps_completed + 1 ↔
        (s.ball.moving = true ∧
         check_finish_line s.ball finish_line_points false = true ∧
         s.crossed_finish_line = false))) ∧
    pinnedFrame1.laps_completed = 1 ∧
    pinnedFrame2.laps_completed = 1 ∧
    pinnedFrame3.laps_completed = 1 := by
  refine ⟨?_, ?_, ?_, ?_⟩
  · intro s
    cases hm : s.ball.moving <;>
      cases hchk : check_finish_line s.ball finish_line_points false <;>
        cases hcr : s.crossed_finish_line <;>
          simp [lap_check, hm, hchk, hcr]
  · simp [pinnedFrame1, pin, lap_check, onLine_check, onLineBall_moving, initState]
  · simp [pinnedFrame2, pinnedFrame1, pin, lap_check, onLine_check, onLineBall_moving, initState]
  · simp [pinnedFrame3, pinnedFrame2, pinnedFrame1, pin, lap_check, onLine_check,
      onLineBall_moving, initState]

/-- Counterexample to C8 as stated: a manual reset (`K_r`) leaves
`laps_completed`, `best_score` and `previous_lap_score` untouched (here 3,
`some 2` and 7 — not reset to zero/unset), leaves `crossed_finish_line`
untouched, and a lap completion sets `crossed_finish_line` to `true`, not
to `false`. -/
theorem C8_counterexample :
    (handle_keyR sScores).laps_completed = 3 ∧
    (handle_keyR sScores).laps_completed ≠ 0 ∧
    (handle_keyR sScores).best_score = some 2 ∧
    (handle_keyR sScores).previous_lap_score = 7 ∧
    (handle_keyR sCross).crossed_finish_line = true ∧
    (lap_check (pin initState true)).crossed_finish_line ≠ false := by
  refine ⟨rfl, by simp [handle_keyR, sScores], rfl, rfl, rfl, ?_⟩
  simp [lap_check, pin, onLine_check, onLineBall_moving, initState]

/-- C8 (as amended): `move_count` is reset to 0 at every lap completion and
at every manual reset.  `crossed_finish_line` is *set to true* at a lap
completion (it clears only on a later frame, once the ball is off the
line) and is left unchanged by a manual reset.  `laps_completed`,
`best_score` and `previous_lap_score` persist across manual resets as well
as lap completions (the lap bookkeeping itself aside); a manual reset
additionally replaces the ball and clears `game_over`. -/
theorem C8_reset_effects :
    (∀ s : GameState,
      (handle_keyR s).move_count = 0 ∧
      (handle_keyR s).game_over = false ∧
      (handle_keyR s).ball = Ball.init ball_x ball_y BALL_RADIUS ∧
      (handle_keyR s).crossed_finish_line = s.crossed_finish_line ∧
      (handle_keyR s).laps_completed = s.laps_completed ∧
      (handle_keyR s).best_score = s.best_score ∧
      (handle_keyR s).previous_lap_score = s.previous_lap_score) ∧
    (∀ s : GameState, s.ball.moving = true →
      check_finish_line s.ball finish_line_points false = true →
      s.crossed_finish_line = false →
      (lap_check s).move_count = 0 ∧ (lap_check s).crossed_finish_line = true) := by
  constructor
  · intro s
    exact ⟨rfl, rfl, rfl, rfl, rfl, rfl, rfl⟩
  · intro s hm hchk hcr
    rw [lap_check_edge s hm hchk hcr]
    exact ⟨rfl, rfl⟩

/-- Witness for C8's amended statement at `sScores` (manual reset) and a
staged lap edge. -/
theorem C8_reset_effects_witness :
    (handle_keyR sScores).move_count = 0 ∧
    (lap_check (lapInput initState 5)).move_count = 0 ∧
    (lap_check (lapInput initState 5)).crossed_finish_line = true :=
  ⟨(C8_reset_effects.1 sScores).1,
   (C8_reset_effects.2 (lapInput initState 5) rfl (onLine_check true) rfl).1,
   (C8_reset_effects.2 (lapInput initState 5) rfl (onLine_check true) rfl).2⟩

/-- A ball that is not moving is left alone by `Ball.update`. -/
lemma update_of_not_moving (b : Ball) (hm : ¬ b.moving = true) : b.update = b := by
  unfold Ball.update
  rw [if_neg hm]

/-- C7: along every sequence of the program's ball operations from the
initial ball, `dragging` and `moving` are never simultaneously true, and a
non-moving ball has velocity exactly `(0, 0)`. -/
theorem C7_drag_moving_exclusive (b : Ball) (hb : BallReach b) :
    ¬ (b.dragging = true ∧ b.moving = true) ∧
    (b.moving = false → b.vx = 0 ∧ b.vy = 0) := by
  induction hb with
  | init => simp [Ball.init]
  | drag_start b px py _ ih =>
      unfold Ball.start_drag
      by_cases hm : b.moving = true
      · rw [if_pos hm]; exact ih
      · rw [if_neg hm]
        constructor
        · rintro ⟨-, h⟩; exact hm h
        · intro h; exact ih.2 h
  | drag_move b px py _ ih =>
      by_cases hd : b.dragging = true
      · rw [if_pos hd]; exact ih
      · rw [if_neg hd]; exact ih
  | drag_end b _ ih =>
      unfold Ball.end_drag
      by_cases hd : b.dragging = true
      · rw [if_pos hd]
        constructor
        · rintro ⟨h, -⟩; simp at h
        · intro h; simp at h
      · rw [if_neg hd]; exact ih
  | step b _ ih =>
      by_cases hm : b.moving = true
      · by_cases hc : collision_test (next_dist2 b) b.radius
        · rw [update_of_collision b hm hc]
          constructor
          · rintro ⟨-, h⟩; simp at h
          · intro _; exact ⟨rfl, rfl⟩
        · rw [update_of_no_collision b hm hc]
          by_cases hth : |b.vx * FRICTION| < 1 / 10 ∧ |b.vy * FRICTION| < 1 / 10
          · rw [if_pos hth]
            constructor
            · rintro ⟨-, h⟩; simp at h
            · intro _; exact ⟨rfl, rfl⟩
          · rw [if_neg hth]
            constructor
            · rintro ⟨hd, -⟩; exact ih.1 ⟨hd, hm⟩
            · intro h; rw [hm] at h; cases h
      · rw [update_of_not_moving b hm]; exact ih
  | lap_reset b _ ih => simp [Ball.init]
  | manual_reset b _ ih => simp [Ball.init]

/-- Witness for C7 at the initial ball. -/
theorem C7_drag_moving_exclusive_witness :
    (Ball.init ball_x ball_y BALL_RADIUS).vx = 0 ∧
    (Ball.init ball_x ball_y BALL_RADIUS).vy = 0 :=
  (C7_drag_moving_exclusive _ BallReach.init).2 rfl

lemma start_drag_moving (b : Ball) (px py : ℚ) : (b.start_drag px py).moving = b.moving := by
  unfold Ball.start_drag
  split_ifs <;> rfl

/-- Step preservation: `Ball.update` never sets `moving`; it can only clear it. -/
lemma update_moving_imp (b : Ball) (h : (b.update).moving = true) : b.moving = true := by
  by_cases hm : b.moving = true
  · exact hm
  · rw [update_of_not_moving b hm] at h
    exact h

lemma inv_initState : Inv initState := by
  simp [Inv, initState, Ball.init]

lemma inv_mouseDown (s : GameState) (px py : ℚ) (h : Inv s) :
    Inv (handle_mouseDown s px py) := by
  obtain ⟨h1, h2, h3, h4⟩ := h
  unfold handle_mouseDown
  split_ifs with hc
  · refine ⟨h1, ?_, h3, h4⟩
    intro hm
    have hm' : (s.ball.start_drag px py).moving = true := hm
    rw [start_drag_moving] at hm'
    exact h2 hm'
  · exact ⟨h1, h2, h3, h4⟩

lemma inv_mouseMotion (s : GameState) (px py : ℚ) (h : Inv s) :
    Inv (handle_mouseMotion s px py) := by
  obtain ⟨h1, h2, h3, h4⟩ := h
  unfold handle_mouseMotion
  split_ifs with hc
  · exact ⟨h1, h2, h3, h4⟩
  · exact ⟨h1, h2, h3, h4⟩

lemma inv_mouseUp (s : GameState) (h : Inv s) : Inv (handle_mouseUp s) := by
  obtain ⟨h1, h2, h3, h4⟩ := h
  unfold handle_mouseUp Ball.end_drag
  by_cases hd : s.ball.dragging = true
  · simp only [hd, if_true, h1, Bool.not_false, Bool.and_true]
    exact ⟨rfl, fun _ => Nat.le_add_left 1 _, h3, h4⟩
  · simp only [hd, if_false, Bool.false_and]
    exact ⟨h1, h2, h3, h4⟩

lemma inv_keyR (s : GameState) (h : Inv s) : Inv (handle_keyR s) := by
  obtain ⟨-, -, h3, h4⟩ := h
  exact ⟨rfl, fun hm => absurd hm (by simp [handle_keyR, Ball.init]), h3, h4⟩

lemma inv_lap_check (s : GameState) (h : Inv s) : Inv (lap_check s) := by
  obtain ⟨h1, h2, h3, h4⟩ := h
  unfold lap_check
  split_ifs with hcond hcr hbeat hncheck
  · have hcond' : s.ball.moving = true ∧
        check_finish_line s.ball finish_line_points false = true := by simpa using hcond
    have hmc : 1 ≤ s.move_count := h2 hcond'.1
    refine ⟨h1, fun hm => absurd hm (by simp [Ball.init]), ?_, fun _ => hmc⟩
    intro n hn
    have hmn : s.move_count = n := by simpa using hn
    omega
  · have hcond' : s.ball.moving = true ∧
        check_finish_line s.ball finish_line_points false = true := by simpa using hcond
    have hmc : 1 ≤ s.move_count := h2 hcond'.1
    exact ⟨h1, fun hm => absurd hm (by simp [Ball.init]), h3, fun _ => hmc⟩
  · exact ⟨h1, h2, h3, h4⟩
  · exact ⟨h1, h2, h3, h4⟩
  · exact ⟨h1, h2, h3, h4⟩

lemma inv_frame (s : GameState) (h : Inv s) : Inv (frame s) := by
  unfold frame
  split_ifs with hg
  · exact h
  · obtain ⟨h1, h2, h3, h4⟩ := h
    refine inv_lap_check _ ⟨h1, ?_, h3, h4⟩
    intro hm
    exact h2 (update_moving_imp s.ball hm)

/-- Every reachable state of the game loop satisfies the invariant. -/
lemma reach_inv (s : GameState) (h : GameReach s) : Inv s := by
  induction h with
  | init => exact inv_initState
  | mouseDown s px py _ ih => exact inv_mouseDown s px py ih
  | mouseMotion s px py _ ih => exact inv_mouseMotion s px py ih
  | mouseUp s _ ih => exact inv_mouseUp s ih
  | keyR s _ ih => exact inv_keyR s ih
  | frame s _ ih => exact inv_frame s ih

/-- C10: in every reachable state of the game loop, a moving ball implies
at least one recorded move; consequently any recorded best score is at
least 1, and once a lap has completed the previous-lap score is at least
1. -/
theorem C10_moving_implies_move_counted (s : GameState) (h : GameReach s) :
    (s.ball.moving = true → 1 ≤ s.move_count) ∧
    (∀ n, s.best_score = some n → 1 ≤ n) ∧
    (1 ≤ s.laps_completed → 1 ≤ s.previous_lap_score) := by
  obtain ⟨-, h2, h3, h4⟩ := reach_inv s h
  exact ⟨h2, h3, h4⟩

/-- Witness for C10: after a click on the idle ball and a release (one
launch), the state is reachable, the ball is moving, and the move counter
is 1. -/
theorem C10_moving_implies_move_counted_witness :
    1 ≤ (handle_mouseUp (handle_mouseDown initState 250 300)).move_count :=
  (C10_moving_implies_move_counted _
    (GameReach.mouseUp _ (GameReach.mouseDown _ 250 300 GameReach.init))).1 rfl

end Racetrack
